import Mathlib

/-!
Verification development for the tw-dataset-generation repository.

The scripts are embedded shallowly: filesystem directories become lists of
filenames (or of name/content pairs), HTTP traffic becomes explicit oracle
parameters (a response record, a page function, a success predicate), and the
per-attraction control loops become structurally recursive Lean functions that
mirror the Python loops statement by statement.
-/

set_option maxHeartbeats 1000000

/-- Python whitespace test (the ASCII range of `str.strip` and of the regex
class used by `re.sub`: space, tab, newline, carriage return, vertical tab,
form feed). -/
def isPySpace (c : Char) : Bool :=
  c = ' ' || c.toNat = 9 || c.toNat = 10 || c.toNat = 13 || c.toNat = 11 || c.toNat = 12

/-- The characters removed by `sanitize_filename` in every scraper variant:
the regex class of backslash, slash, star, question mark, colon, double
quote, less-than, greater-than, pipe. -/
def isUnsafeChar (c : Char) : Bool :=
  c.toNat = 92 || c = '/' || c = '*' || c = '?' || c = ':' || c.toNat = 34 ||
    c = '<' || c = '>' || c = '|'

/-- One pass of the substitution replacing each unsafe character by an
underscore (the Python `re.sub` of the unsafe class with an underscore). -/
def subUnsafe (l : List Char) : List Char :=
  l.map (fun c => if isUnsafeChar c then '_' else c)

/-- Python `str.strip`: drop whitespace from both ends. -/
def stripList (l : List Char) : List Char :=
  ((l.dropWhile isPySpace).reverse.dropWhile isPySpace).reverse

/-- Replace every maximal run of whitespace by a single underscore (the
Python substitution of one or more whitespace characters by an underscore);
the boolean flag records whether we are inside a whitespace run. -/
def collapseAux : Bool → List Char → List Char
  | _, [] => []
  | true, c :: cs =>
    if isPySpace c then collapseAux true cs else c :: collapseAux false cs
  | false, c :: cs =>
    if isPySpace c then '_' :: collapseAux true cs else c :: collapseAux false cs

def collapseWs (l : List Char) : List Char := collapseAux false l

/-- Decimal digit character (code point 48 plus the digit value). -/
def digitCh (d : Nat) : Char := Char.ofNat (48 + d)

/-- Decimal rendering of a natural number, with explicit fuel so that the
definition is structurally recursive; the fuel is always instantiated large
enough (see `natChars`). -/
def natCharsAux : Nat → Nat → List Char
  | 0, _ => []
  | fuel + 1, n =>
    if n < 10 then [digitCh n]
    else natCharsAux fuel (n / 10) ++ [digitCh (n % 10)]

/-- The decimal digits of a natural number (Python rendering of an int). -/
def natChars (n : Nat) : List Char := natCharsAux (n + 1) n

/-- Zero-pad the decimal rendering to at least three characters (the Python
format spec 03d used by the Google scraper's filenames). -/
def pad3 (n : Nat) : List Char :=
  List.replicate (3 - (natChars n).length) '0' ++ natChars n

/-- Read a digit string back as a number; used only to prove that the
decimal rendering is injective. -/
def valD (l : List Char) : Nat :=
  l.foldl (fun a c => 10 * a + (c.toNat - 48)) 0

/-- ASCII lowercase of one character (the range Python lowercases in the
names the scrapers compare: A..Z). -/
def lowerChar (c : Char) : Char :=
  if 65 ≤ c.toNat ∧ c.toNat ≤ 90 then Char.ofNat (c.toNat + 32) else c

/-- Python `str.lower` on the ASCII range. -/
def lowerStr (s : String) : String := ⟨s.data.map lowerChar⟩

/-- Python `str.endswith`. -/
def strEndsWith (s suf : String) : Bool :=
  decide (s.data.drop (s.data.length - suf.data.length) = suf.data)

/-- Python `str.startswith`. -/
def strStartsWith (s pre : String) : Bool :=
  decide (s.data.take pre.data.length = pre.data)

/-- The characters of the .jpg extension. -/
def jpgExt : List Char := ['.', 'j', 'p', 'g']

/-- Python truthiness of an optional environment string: `None` and the
empty string are falsy. -/
def pyTruthy : Option String → Bool
  | none => false
  | some s => !s.isEmpty

/-- PIL color modes relevant to the scrapers' conversion logic. -/
inductive PMode
  | RGB
  | RGBA
  | LA
  | P
  | L
  | CMYK
deriving DecidableEq

/-- A decoded image; only the color mode is observed by the scripts. -/
structure Img where
  mode : PMode
deriving DecidableEq

/-- Whether a PIL mode carries an alpha channel. -/
def modeHasAlpha : PMode → Bool
  | PMode.RGBA => true
  | PMode.LA => true
  | _ => false

/-- An HTTP response as observed by the downloaders: the declared content
type, the declared content length (absent when the header is missing) and
the body bytes.  A request-level failure (timeout, connection error, bad
status) is modelled as the absence of a response. -/
structure HttpResponse where
  contentType : String
  contentLength : Option Nat
  body : List Nat
deriving DecidableEq

/-- A file stored on disk: either the raw downloaded bytes, or a JPEG
re-encoding (with quality) of a decoded image. -/
inductive StoredFile
  | raw : List Nat → StoredFile
  | jpeg : Nat → Img → StoredFile
deriving DecidableEq

/-- A concrete response body of 10000 bytes, large enough to pass the
Flickr size check (used by the concrete test vectors below). -/
def bigBody : List Nat := List.replicate 10000 7

namespace FlickrScraper

/-- `FlickrImageScraper.sanitize_filename`: substitute each
filesystem-unsafe character with an underscore. -/
def sanitize_filename (name : String) : String :=
  ⟨subUnsafe name.data⟩

/-- `FlickrImageScraper.__init__` credential check: the API client exists
exactly when both the key and the secret are truthy; otherwise the scraper
logs a warning and keeps going with the web-scraping fallback. -/
def initHasApi (apiKey apiSecret : Option String) : Bool :=
  pyTruthy apiKey && pyTruthy apiSecret

/-- The existing-image scan in `scrape_attraction_images`: count the files
whose lowercased name ends in .jpg, .jpeg or .png. -/
def scanExisting (dir : List String) : Nat :=
  (dir.filter (fun f =>
    strEndsWith (lowerStr f) ".jpg" || strEndsWith (lowerStr f) ".jpeg" ||
      strEndsWith (lowerStr f) ".png")).length

/-- The needed-image count computed in `scrape_attraction_images` (max
images minus existing; truncated subtraction makes it 0 in the skip
case). -/
def neededImages (maxImages : Nat) (dir : List String) : Nat :=
  maxImages - scanExisting dir

/-- Destination filename in the Flickr scraper: folder, underscore, the
raw unpadded 1-based index, .jpg. -/
def imageFilename (folder : String) (idx : Nat) : String :=
  ⟨folder.data ++ '_' :: (natChars idx ++ jpgExt)⟩

/-- State of the Flickr download loop: directory contents, downloaded
counter, and number of network calls made so far (searches plus download
requests). -/
structure ScrapeSt where
  fs : List String
  downloaded : Nat
  netCalls : Nat
deriving DecidableEq

/-- The download loop of `scrape_attraction_images`: stop once the needed
count is reached; every candidate costs one download request; the file
(named existing + downloaded + 1) is added exactly on success. -/
def scrapeLoop (download : String → Bool) (folder : String)
    (existing needed : Nat) : List String → ScrapeSt → ScrapeSt
  | [], st => st
  | url :: rest, st =>
    if needed ≤ st.downloaded then st
    else if download url then
      scrapeLoop download folder existing needed rest
        ⟨imageFilename folder (existing + st.downloaded + 1) :: st.fs,
          st.downloaded + 1, st.netCalls + 1⟩
    else
      scrapeLoop download folder existing needed rest
        ⟨st.fs, st.downloaded, st.netCalls + 1⟩

/-- The query loop of the search phase: issue one provider call per query
until a query returns a non-empty result; returns the first non-empty
result and the number of calls made. -/
def firstHit : List (List String) → List String × Nat
  | [] => ([], 0)
  | q :: qs =>
    if q.isEmpty then
      let r := firstHit qs
      (r.1, r.2 + 1)
    else (q, 1)

/-- The search phase of `scrape_attraction_images`: query the API (only
when the client exists), fall back to web scraping when the API yielded
nothing; returns the URL list found and the number of provider calls
made. -/
def searchPhase (hasApi : Bool) (apiQ webQ : List (List String)) :
    List String × Nat :=
  let api := if hasApi then firstHit apiQ else ([], 0)
  if api.1.isEmpty then ((firstHit webQ).1, api.2 + (firstHit webQ).2)
  else api

/-- `scrape_attraction_images`: skip with zero network calls when the
directory already holds the target count; otherwise run the search phase
and then the download loop.  The per-query result lists and the per-URL
download success are oracles standing for the remote state. -/
def scrape_attraction_images (hasApi : Bool) (apiQ webQ : List (List String))
    (download : String → Bool) (folder : String) (maxImages : Nat)
    (fs : List String) : ScrapeSt × Bool :=
  if maxImages ≤ scanExisting fs then (⟨fs, 0, 0⟩, true)
  else
    if (searchPhase hasApi apiQ webQ).1.isEmpty then
      (⟨fs, 0, (searchPhase hasApi apiQ webQ).2⟩, false)
    else
      (scrapeLoop download folder (scanExisting fs) (neededImages maxImages fs)
        (searchPhase hasApi apiQ webQ).1 ⟨fs, 0, (searchPhase hasApi apiQ webQ).2⟩,
       0 < (scrapeLoop download folder (scanExisting fs) (neededImages maxImages fs)
        (searchPhase hasApi apiQ webQ).1
        ⟨fs, 0, (searchPhase hasApi apiQ webQ).2⟩).downloaded)

/-- The write-then-verify tail of `FlickrImageScraper.download_image`: the
body is written to the destination, then the on-disk size is checked and an
undersized file is deleted again, so the net effect of an undersized body
is an unchanged directory. -/
def writeChecked (r : HttpResponse) (savePath : String)
    (dir : List (String × StoredFile)) : Bool × List (String × StoredFile) :=
  if r.body.length < 10000 then (false, dir)
  else (true, (savePath, StoredFile.raw r.body) :: dir)

/-- `FlickrImageScraper.download_image`: a request failure, a non-image
content type, a declared length under 10000 bytes, or an actual length
under 10000 bytes all reject the candidate and leave the directory
unchanged; on success the raw body is stored under the destination name. -/
def download_image (resp : Option HttpResponse) (savePath : String)
    (dir : List (String × StoredFile)) : Bool × List (String × StoredFile) :=
  match resp with
  | none => (false, dir)
  | some r =>
    if strStartsWith r.contentType "image/" = false then (false, dir)
    else
      match r.contentLength with
      | some l => if l < 10000 then (false, dir) else writeChecked r savePath dir
      | none => writeChecked r savePath dir

/-- Per-attraction outcome as seen by `process_csv_file`: the scrape
returned True, returned False, or raised an exception that the loop
caught. -/
inductive Outcome
  | ok
  | notOk
  | exn
deriving DecidableEq

/-- The aggregation loop of `process_csv_file`: every attraction is
processed in turn; True increments the success counter, False and a caught
exception increment the failure counter; the loop never aborts. -/
def process_csv_file (step : String → Outcome) (attractions : List String) :
    Nat × Nat :=
  attractions.foldl
    (fun c a =>
      match step a with
      | Outcome.ok => (c.1 + 1, c.2)
      | Outcome.notOk => (c.1, c.2 + 1)
      | Outcome.exn => (c.1, c.2 + 1))
    (0, 0)

end FlickrScraper

namespace GoogleScraper

/-- `sanitize_filename` of `google_search_image_scraper.py`: substitute the
unsafe characters, strip, collapse whitespace runs to underscores, and cut
to at most 100 characters. -/
def sanitize_filename (name : String) : String :=
  ⟨(collapseWs (stripList (subUnsafe name.data))).take 100⟩

/-- `count_images_in_directory`: the number of files in the directory whose
lowercased name ends in .jpg. -/
def count_images_in_directory (dir : List String) : Nat :=
  (dir.filter (fun f => strEndsWith (lowerStr f) ".jpg")).length

/-- The destination filename built in `process_attractions`: folder name,
underscore, the 1-based sequence index zero-padded to at least three
digits, and the .jpg extension. -/
def imageFilename (folder : String) (idx : Nat) : String :=
  ⟨folder.data ++ '_' :: (pad3 idx ++ jpgExt)⟩

/-- State of the per-attraction download loop: directory contents, the
downloaded counter, and the number of download requests issued. -/
structure LoopSt where
  fs : List String
  downloaded : Nat
  fetchCalls : Nat
deriving DecidableEq

/-- The inner download loop of `process_attractions`: stop once existing
plus downloaded reaches the target; a candidate whose destination file
already exists is counted as downloaded and skipped without fetching;
otherwise fetch, adding the file exactly on success. -/
def downloadLoop (fetch : String → Bool) (folder : String)
    (existing target : Nat) : List String → LoopSt → LoopSt
  | [], st => st
  | url :: rest, st =>
    if target ≤ existing + st.downloaded then st
    else if imageFilename folder (existing + st.downloaded + 1) ∈ st.fs then
      downloadLoop fetch folder existing target rest
        ⟨st.fs, st.downloaded + 1, st.fetchCalls⟩
    else if fetch url then
      downloadLoop fetch folder existing target rest
        ⟨imageFilename folder (existing + st.downloaded + 1) :: st.fs,
          st.downloaded + 1, st.fetchCalls + 1⟩
    else
      downloadLoop fetch folder existing target rest
        ⟨st.fs, st.downloaded, st.fetchCalls + 1⟩

/-- Result of processing one attraction: final directory contents, the
downloaded counter, and how many provider searches and download fetches
were issued. -/
structure RunResult where
  fs : List String
  downloaded : Nat
  searchCalls : Nat
  fetchCalls : Nat
deriving DecidableEq

/-- One iteration of `process_attractions` for a single attraction: skip
entirely (no search, no fetch) when the directory already holds at least
the target number of .jpg files; otherwise issue the provider search once
and run the download loop.  The provider's URL list and the per-URL
download success are oracle parameters standing for the remote state. -/
def processAttraction (fetch : String → Bool) (urls : List String)
    (folder : String) (target : Nat) (fs : List String) : RunResult :=
  let existing := count_images_in_directory fs
  if target ≤ existing then ⟨fs, 0, 0, 0⟩
  else if urls.isEmpty then ⟨fs, 0, 1, 0⟩
  else
    let st := downloadLoop fetch folder existing target urls ⟨fs, 0, 0⟩
    ⟨st.fs, st.downloaded, 1, st.fetchCalls⟩

/-- The filenames of a contiguous 1-based index run, newest first:
`seqNames folder n` holds the names with indices n, n-1, ..., 1. -/
def seqNames (folder : String) : Nat → List String
  | 0 => []
  | n + 1 => imageFilename folder (n + 1) :: seqNames folder n

/-- Compositing onto an opaque white RGB background (the branch of
`download_image` taken for the RGBA, LA and P modes). -/
def compositeOnWhite (_img : Img) : Img := ⟨PMode.RGB⟩

/-- Plain RGB conversion (the branch taken for the remaining non-RGB
modes). -/
def convertRGB (_img : Img) : Img := ⟨PMode.RGB⟩

/-- The mode-normalization block of `download_image`: alpha or palette
modes are composited onto white, any other non-RGB mode is converted to
RGB, RGB passes through. -/
def convertForJpeg (img : Img) : Img :=
  if img.mode = PMode.RGBA ∨ img.mode = PMode.LA ∨ img.mode = PMode.P then
    compositeOnWhite img
  else if img.mode ≠ PMode.RGB then convertRGB img
  else img

/-- `download_image` of the Google scraper: a request failure or a
non-image content type rejects; the body is decoded (an oracle standing
for the PIL decoder; decode failure is the caught conversion error), the
mode is normalized, and the result is saved as JPEG quality 95; an empty
saved file is deleted again.  No 10000-byte minimum is enforced. -/
def download_image (decode : List Nat → Option Img) (encSize : Img → Nat)
    (resp : Option HttpResponse) (savePath : String)
    (dir : List (String × StoredFile)) : Bool × List (String × StoredFile) :=
  match resp with
  | none => (false, dir)
  | some r =>
    if strStartsWith (lowerStr r.contentType) "image/" = false then (false, dir)
    else
      match decode r.body with
      | none => (false, dir)
      | some img =>
        let img2 := convertForJpeg img
        if 0 < encSize img2 then (true, (savePath, StoredFile.jpeg 95 img2) :: dir)
        else (false, dir)

/-- The components of a parsed URL as used by `is_valid_image_url`. -/
structure UrlParts where
  scheme : String
  netloc : String
  path : String
deriving DecidableEq

/-- `is_valid_image_url`: a scheme and a network location must be present
and the lowercased path must end in one of the image extensions. -/
def is_valid_image_url (u : UrlParts) : Bool :=
  !u.scheme.isEmpty && !u.netloc.isEmpty &&
    (strEndsWith (lowerStr u.path) ".jpg" || strEndsWith (lowerStr u.path) ".jpeg" ||
      strEndsWith (lowerStr u.path) ".png" || strEndsWith (lowerStr u.path) ".gif" ||
      strEndsWith (lowerStr u.path) ".webp")

/-- Outcome of one page request in `search_images`: a parsed item list
(each item's optional link), a transport-level request failure, or a
response-parsing failure. -/
inductive PageResult
  | ok : List (Option UrlParts) → PageResult
  | requestError : PageResult
  | parseError : PageResult

/-- The per-page collection step: keep each present link that passes
`is_valid_image_url`. -/
def pageLinks (items : List (Option UrlParts)) : List UrlParts :=
  items.filterMap (fun it =>
    match it with
    | some u => if is_valid_image_url u then some u else none
    | none => none)

/-- The pagination loop of `GoogleImageSearcher.search_images`: while fewer
URLs than requested have been collected and the start offset is at most 91
(the API caps results at 100), request one page; an empty item list ends
the pagination, a request or parse failure aborts it, returning the URLs
collected so far; otherwise the valid links are appended and the offset
advances by the page size 10. -/
def search_images_loop (pages : Nat → PageResult) (numImages : Nat)
    (acc : List UrlParts) (start : Nat) : List UrlParts :=
  if h : acc.length < numImages ∧ start ≤ 91 then
    match pages start with
    | PageResult.requestError => acc
    | PageResult.parseError => acc
    | PageResult.ok items =>
      if items.isEmpty then acc
      else search_images_loop pages numImages (acc ++ pageLinks items) (start + 10)
  else acc
termination_by 92 - start
decreasing_by omega

/-- `search_images`: run the pagination loop from an empty accumulator and
start offset 1. -/
def search_images (pages : Nat → PageResult) (numImages : Nat) : List UrlParts :=
  search_images_loop pages numImages [] 1

/-- Totals of a whole `process_attractions` run. -/
structure RunTotals where
  processed : Nat
  searchCalls : Nat
  fetchCalls : Nat
deriving DecidableEq

/-- `process_attractions`: with a falsy API key or search engine id the
function returns before touching the network or the filesystem; otherwise
every attraction is processed in turn.  Oracles give each attraction's
provider URLs, per-URL download success, and starting directory. -/
def process_attractions (apiKey searchEngineId : Option String)
    (fetch : String → Bool) (urlsOf : String → List String)
    (dirOf : String → List String) (target : Nat)
    (attractions : List String) : RunTotals :=
  if !pyTruthy apiKey || !pyTruthy searchEngineId then ⟨0, 0, 0⟩
  else
    attractions.foldl
      (fun t a =>
        let r := processAttraction fetch (urlsOf a) (sanitize_filename a)
          target (dirOf a)
        ⟨t.processed + 1, t.searchCalls + r.searchCalls,
          t.fetchCalls + r.fetchCalls⟩)
      ⟨0, 0, 0⟩

end GoogleScraper

namespace ImageScraper

/-- `sanitize_filename` of `image_scraper.py` (same substitution as the
Flickr variant). -/
def sanitize_filename (name : String) : String :=
  ⟨subUnsafe name.data⟩

/-- The destination filename built in `process_attractions` of
`image_scraper.py`: folder name, underscore, the raw unpadded index, and
the .jpg extension. -/
def imageFilename (folder : String) (idx : Nat) : String :=
  ⟨folder.data ++ '_' :: (natChars idx ++ jpgExt)⟩

/-- State of the Maps-variant download loop: directory contents and number
of download requests issued. -/
structure LoopSt where
  fs : List String
  fetchCalls : Nat
deriving DecidableEq

/-- The download loop of `image_scraper.py`: iterate the truncated
candidate list with a 1-based position counter; the filename index is
existing plus the position regardless of earlier failures; a candidate
whose file exists is skipped without fetching; a failed download still
advances the position. -/
def downloadLoop (download : String → Bool) (folder : String)
    (existing : Nat) : List String → Nat → LoopSt → LoopSt
  | [], _, st => st
  | url :: rest, i, st =>
    if imageFilename folder (existing + i) ∈ st.fs then
      downloadLoop download folder existing rest (i + 1) st
    else if download url then
      downloadLoop download folder existing rest (i + 1)
        ⟨imageFilename folder (existing + i) :: st.fs, st.fetchCalls + 1⟩
    else
      downloadLoop download folder existing rest (i + 1) ⟨st.fs, st.fetchCalls + 1⟩

end ImageScraper

namespace ConvertJsonl

/-- Python `line.strip()` inside `read_jsonl_file`. -/
def stripLine (s : String) : String := ⟨stripList s.data⟩

/-- The line loop of `read_jsonl_file`: strip each line, skip lines that
are empty after stripping, parse the rest with the JSON parser (an oracle
standing for `json.loads`; parse failure is the caught decode error, which
skips the line). -/
def read_jsonl_lines {α : Type} (parse : String → Option α)
    (lines : List String) : List α :=
  lines.filterMap (fun line =>
    let t := stripLine line
    if t.isEmpty then none else parse t)

/-- `read_jsonl_file` including the file-open behavior: an unreadable file
propagates its error; a readable file never raises. -/
def read_jsonl_file {α : Type} (parse : String → Option α)
    (file : Except String (List String)) : Except String (List α) :=
  match file with
  | Except.error e => Except.error e
  | Except.ok lines => Except.ok (read_jsonl_lines parse lines)

end ConvertJsonl

lemma mem_subUnsafe {l : List Char} {c : Char} (h : c ∈ subUnsafe l) :
    isUnsafeChar c = false := by
  rcases List.mem_map.mp h with ⟨a, _, rfl⟩
  by_cases ha : isUnsafeChar a
  · simp only [ha, if_true]; decide
  · simp only [ha, if_false]; simpa using ha

lemma subUnsafe_id {l : List Char} (h : ∀ c ∈ l, isUnsafeChar c = false) :
    subUnsafe l = l := by
  induction l with
  | nil => rfl
  | cons a l ih =>
    have ha := h a (by simp)
    simp only [subUnsafe, List.map_cons, ha, if_false]
    exact congrArg (a :: ·) (ih (fun c hc => h c (by simp [hc])))

lemma mem_stripList {l : List Char} {c : Char} (h : c ∈ stripList l) : c ∈ l := by
  have h1 : c ∈ (l.dropWhile isPySpace).reverse.dropWhile isPySpace :=
    List.mem_reverse.mp h
  have h2 : c ∈ (l.dropWhile isPySpace).reverse :=
    (List.dropWhile_sublist _).mem h1
  have h3 : c ∈ l.dropWhile isPySpace := List.mem_reverse.mp h2
  exact (List.dropWhile_sublist _).mem h3

lemma dropWhile_eq_self {p : Char → Bool} {l : List Char}
    (h : ∀ c ∈ l, p c = false) : l.dropWhile p = l := by
  cases l with
  | nil => rfl
  | cons a l => simp [List.dropWhile, h a (by simp)]

lemma stripList_id {l : List Char} (h : ∀ c ∈ l, isPySpace c = false) :
    stripList l = l := by
  unfold stripList
  rw [dropWhile_eq_self h]
  rw [dropWhile_eq_self (fun c hc => h c (List.mem_reverse.mp hc))]
  exact List.reverse_reverse l

lemma mem_collapseAux {l : List Char} {b : Bool} {c : Char}
    (h : c ∈ collapseAux b l) : c = '_' ∨ c ∈ l := by
  induction l generalizing b with
  | nil => cases b <;> simp [collapseAux] at h
  | cons a l ih =>
    by_cases ha : isPySpace a
    · cases b
      · rw [show collapseAux false (a :: l) = '_' :: collapseAux true l by
          simp [collapseAux, ha]] at h
        rcases List.mem_cons.mp h with h1 | h1
        · exact Or.inl h1
        · rcases ih h1 with h2 | h2
          · exact Or.inl h2
          · exact Or.inr (List.mem_cons_of_mem a h2)
      · rw [show collapseAux true (a :: l) = collapseAux true l by
          simp [collapseAux, ha]] at h
        rcases ih h with h2 | h2
        · exact Or.inl h2
        · exact Or.inr (List.mem_cons_of_mem a h2)
    · have hstep : ∀ b : Bool, collapseAux b (a :: l) = a :: collapseAux false l := by
        intro b; cases b <;> simp [collapseAux, ha]
      rw [hstep b] at h
      rcases List.mem_cons.mp h with h1 | h1
      · exact Or.inr (h1 ▸ List.mem_cons_self a l)
      · rcases ih h1 with h2 | h2
        · exact Or.inl h2
        · exact Or.inr (List.mem_cons_of_mem a h2)

lemma collapseAux_no_space {l : List Char} {b : Bool} {c : Char}
    (h : c ∈ collapseAux b l) : isPySpace c = false := by
  induction l generalizing b with
  | nil => cases b <;> simp [collapseAux] at h
  | cons a l ih =>
    by_cases ha : isPySpace a
    · cases b
      · rw [show collapseAux false (a :: l) = '_' :: collapseAux true l by
          simp [collapseAux, ha]] at h
        rcases List.mem_cons.mp h with h1 | h1
        · rw [h1]; decide
        · exact ih h1
      · rw [show collapseAux true (a :: l) = collapseAux true l by
          simp [collapseAux, ha]] at h
        exact ih h
    · have hstep : ∀ b : Bool, collapseAux b (a :: l) = a :: collapseAux false l := by
        intro b; cases b <;> simp [collapseAux, ha]
      rw [hstep b] at h
      rcases List.mem_cons.mp h with h1 | h1
      · rw [h1]; simpa using ha
      · exact ih h1

lemma collapseAux_id {l : List Char} (h : ∀ c ∈ l, isPySpace c = false) :
    collapseAux false l = l := by
  induction l with
  | nil => rfl
  | cons a l ih =>
    have ha := h a (by simp)
    rw [show collapseAux false (a :: l) = a :: collapseAux false l by
      simp [collapseAux, ha]]
    exact congrArg (a :: ·) (ih (fun c hc => h c (by simp [hc])))

lemma google_sanitize_chars {s : String} {c : Char}
    (h : c ∈ (GoogleScraper.sanitize_filename s).data) :
    isUnsafeChar c = false ∧ isPySpace c = false := by
  have hmem : c ∈ collapseWs (stripList (subUnsafe s.data)) :=
    (List.take_sublist _ _).mem h
  refine ⟨?_, collapseAux_no_space hmem⟩
  rcases mem_collapseAux hmem with h' | h'
  · rw [h']; decide
  · exact mem_subUnsafe (mem_stripList h')

/-- C9: `sanitize_filename` is idempotent in both variants, its result
contains none of the filesystem-unsafe characters (backslash, slash, star,
question mark, colon, double quote, less-than, greater-than, pipe), and the
Google-variant result additionally contains no whitespace and has length at
most 100, so it is usable as a single path component. -/
theorem c9_sanitize_idempotent_safe (s : String) :
    FlickrScraper.sanitize_filename (FlickrScraper.sanitize_filename s) =
      FlickrScraper.sanitize_filename s
    ∧ (∀ c ∈ (FlickrScraper.sanitize_filename s).data, isUnsafeChar c = false)
    ∧ GoogleScraper.sanitize_filename (GoogleScraper.sanitize_filename s) =
      GoogleScraper.sanitize_filename s
    ∧ (∀ c ∈ (GoogleScraper.sanitize_filename s).data, isUnsafeChar c = false)
    ∧ (∀ c ∈ (GoogleScraper.sanitize_filename s).data, isPySpace c = false)
    ∧ (GoogleScraper.sanitize_filename s).data.length ≤ 100 := by
  refine ⟨?_, ?_, ?_, ?_, ?_, ?_⟩
  · show (⟨subUnsafe (subUnsafe s.data)⟩ : String) = ⟨subUnsafe s.data⟩
    exact congrArg String.mk (subUnsafe_id (fun c hc => mem_subUnsafe hc))
  · intro c hc
    exact mem_subUnsafe hc
  · show (⟨(collapseWs (stripList (subUnsafe
        (GoogleScraper.sanitize_filename s).data))).take 100⟩ : String) =
      GoogleScraper.sanitize_filename s
    have hu : ∀ c ∈ (GoogleScraper.sanitize_filename s).data, isUnsafeChar c = false :=
      fun c hc => (google_sanitize_chars hc).1
    have hs : ∀ c ∈ (GoogleScraper.sanitize_filename s).data, isPySpace c = false :=
      fun c hc => (google_sanitize_chars hc).2
    rw [subUnsafe_id hu, stripList_id hs]
    show (⟨(collapseAux false _).take 100⟩ : String) = _
    rw [collapseAux_id hs]
    have hlen : (GoogleScraper.sanitize_filename s).data.length ≤ 100 := by
      show ((collapseWs (stripList (subUnsafe s.data))).take 100).length ≤ 100
      simpa using List.length_take_le 100 _
    rw [List.take_of_length_le hlen]
  · intro c hc
    exact (google_sanitize_chars hc).1
  · intro c hc
    exact (google_sanitize_chars hc).2
  · show ((collapseWs (stripList (subUnsafe s.data))).take 100).length ≤ 100
    simpa using List.length_take_le 100 _

lemma digitCh_toNat {d : Nat} (h : d < 10) : (digitCh d).toNat = 48 + d := by
  interval_cases d <;> decide

lemma foldl_natCharsAux :
    ∀ (fuel n a : Nat), n < fuel →
      (natCharsAux fuel n).foldl (fun a c => 10 * a + (c.toNat - 48)) a =
        a * 10 ^ (natCharsAux fuel n).length + n := by
  intro fuel
  induction fuel with
  | zero => intro n a h; exact absurd h (Nat.not_lt_zero n)
  | succ fuel ih =>
    intro n a h
    by_cases h10 : n < 10
    · simp only [natCharsAux, h10, if_true]
      simp only [List.foldl, List.length_singleton, pow_one]
      rw [digitCh_toNat h10]
      omega
    · simp only [natCharsAux, h10, if_false]
      have hlt : n / 10 < fuel := by
        have hd : n / 10 < n := Nat.div_lt_self (by omega) (by omega)
        omega
      rw [List.foldl_append, ih (n / 10) a hlt]
      have hmod : (digitCh (n % 10)).toNat - 48 = n % 10 := by
        rw [digitCh_toNat (Nat.mod_lt n (by omega))]; omega
      simp only [List.foldl, hmod, List.length_append, List.length_singleton]
      calc 10 * (a * 10 ^ (natCharsAux fuel (n / 10)).length + n / 10) + n % 10
          = a * (10 ^ (natCharsAux fuel (n / 10)).length * 10) +
              (10 * (n / 10) + n % 10) := by ring
        _ = a * 10 ^ ((natCharsAux fuel (n / 10)).length + 1) + n := by
              rw [pow_succ, Nat.div_add_mod]

lemma valD_natChars (n : Nat) : valD (natChars n) = n := by
  have h := foldl_natCharsAux (n + 1) n 0 (Nat.lt_succ_self n)
  simpa [valD, natChars] using h

lemma foldl_val_zeros :
    ∀ k : Nat,
      (List.replicate k '0').foldl (fun a c => 10 * a + (c.toNat - 48)) 0 = 0 := by
  intro k
  induction k with
  | zero => rfl
  | succ k ih => simpa [List.replicate, List.foldl] using ih

lemma valD_pad3 (n : Nat) : valD (pad3 n) = n := by
  unfold valD pad3
  rw [List.foldl_append, foldl_val_zeros]
  exact valD_natChars n

lemma pad3_inj {i j : Nat} (h : pad3 i = pad3 j) : i = j := by
  have hi := valD_pad3 i
  rw [h, valD_pad3 j] at hi
  exact hi.symm

lemma pad3_length (n : Nat) : 3 ≤ (pad3 n).length := by
  simp only [pad3, List.length_append, List.length_replicate]
  omega

lemma gImageFilename_inj {folder : String} {i j : Nat}
    (h : GoogleScraper.imageFilename folder i = GoogleScraper.imageFilename folder j) :
    i = j := by
  have hd : folder.data ++ '_' :: (pad3 i ++ jpgExt) =
      folder.data ++ '_' :: (pad3 j ++ jpgExt) := congrArg String.data h
  have h1 : pad3 i ++ jpgExt = pad3 j ++ jpgExt := by
    have h2 := List.append_cancel_left hd
    exact List.cons.inj h2 |>.2
  exact pad3_inj (List.append_cancel_right h1)

lemma gLoop_fs_mono (fetch : String → Bool) (folder : String)
    (existing target : Nat) :
    ∀ (urls : List String) (st : GoogleScraper.LoopSt) (f : String),
      f ∈ st.fs →
      f ∈ (GoogleScraper.downloadLoop fetch folder existing target urls st).fs := by
  intro urls
  induction urls with
  | nil => intro st f hf; exact hf
  | cons url rest ih =>
    intro st f hf
    simp only [GoogleScraper.downloadLoop]
    by_cases h1 : target ≤ existing + st.downloaded
    · rw [if_pos h1]; exact hf
    · rw [if_neg h1]
      by_cases h2 :
          GoogleScraper.imageFilename folder (existing + st.downloaded + 1) ∈ st.fs
      · rw [if_pos h2]; exact ih _ f hf
      · rw [if_neg h2]
        by_cases h3 : fetch url
        · simp only [h3, if_true]
          exact ih _ f (List.mem_cons_of_mem _ hf)
        · simp only [h3, if_false]
          exact ih _ f hf

lemma gLoop_nodup (fetch : String → Bool) (folder : String)
    (existing target : Nat) :
    ∀ (urls : List String) (st : GoogleScraper.LoopSt), st.fs.Nodup →
      (GoogleScraper.downloadLoop fetch folder existing target urls st).fs.Nodup := by
  intro urls
  induction urls with
  | nil => intro st h; exact h
  | cons url rest ih =>
    intro st h
    simp only [GoogleScraper.downloadLoop]
    by_cases h1 : target ≤ existing + st.downloaded
    · rw [if_pos h1]; exact h
    · rw [if_neg h1]
      by_cases h2 :
          GoogleScraper.imageFilename folder (existing + st.downloaded + 1) ∈ st.fs
      · rw [if_pos h2]; exact ih _ h
      · rw [if_neg h2]
        by_cases h3 : fetch url
        · simp only [h3, if_true]
          exact ih _ (List.nodup_cons.mpr ⟨h2, h⟩)
        · simp only [h3, if_false]
          exact ih _ h

lemma not_mem_seqNames (folder : String) :
    ∀ (d m : Nat), d < m →
      GoogleScraper.imageFilename folder m ∉ GoogleScraper.seqNames folder d := by
  intro d
  induction d with
  | zero => intro m _ h; simp [GoogleScraper.seqNames] at h
  | succ d ih =>
    intro m hm h
    rcases List.mem_cons.mp h with h1 | h1
    · have := gImageFilename_inj h1
      omega
    · exact ih m (by omega) h1

lemma gLoop_contig (fetch : String → Bool) (folder : String) (target : Nat) :
    ∀ (urls : List String) (d c : Nat),
      (GoogleScraper.downloadLoop fetch folder 0 target urls
          ⟨GoogleScraper.seqNames folder d, d, c⟩).fs =
        GoogleScraper.seqNames folder
          ((GoogleScraper.downloadLoop fetch folder 0 target urls
              ⟨GoogleScraper.seqNames folder d, d, c⟩).downloaded) := by
  intro urls
  induction urls with
  | nil => intro d c; rfl
  | cons url rest ih =>
    intro d c
    simp only [GoogleScraper.downloadLoop]
    by_cases h1 : target ≤ 0 + d
    · rw [if_pos h1]
    · rw [if_neg h1]
      have hnot : GoogleScraper.imageFilename folder (0 + d + 1) ∉
          GoogleScraper.seqNames folder d := by
        have h0 : 0 + d + 1 = d + 1 := by omega
        rw [h0]
        exact not_mem_seqNames folder d (d + 1) (by omega)
      rw [if_neg hnot]
      by_cases h3 : fetch url
      · simp only [h3, if_true]
        have hcons : GoogleScraper.imageFilename folder (0 + d + 1) ::
            GoogleScraper.seqNames folder d =
            GoogleScraper.seqNames folder (d + 1) := by
          have h0 : 0 + d + 1 = d + 1 := by omega
          rw [h0]
          rfl
        rw [hcons]
        exact ih (d + 1) (c + 1)
      · simp only [h3, if_false]
        exact ih d (c + 1)

/-- C1: idempotent re-run of the Google acquisition loop.  Conjuncts: (1) a
loop step whose destination filename already exists counts the candidate as
downloaded and continues with the directory and the fetch counter
unchanged; (2) a run never deletes or renames an existing file; (3) a run
never writes a filename twice (a directory without duplicates stays without
duplicates); (4) once a directory holds at least the target number of .jpg
files — in particular after a first run that reached the target — a
further run over the same inputs changes nothing and performs no network
call. -/
theorem c1_rerun_idempotent (fetch : String → Bool) (urls : List String)
    (folder : String) (existing target : Nat) (fs : List String) :
    (∀ (url : String) (rest : List String) (st : GoogleScraper.LoopSt),
      existing + st.downloaded < target →
      GoogleScraper.imageFilename folder (existing + st.downloaded + 1) ∈ st.fs →
      GoogleScraper.downloadLoop fetch folder existing target (url :: rest) st =
        GoogleScraper.downloadLoop fetch folder existing target rest
          ⟨st.fs, st.downloaded + 1, st.fetchCalls⟩)
    ∧ (∀ f ∈ fs, f ∈ (GoogleScraper.processAttraction fetch urls folder target fs).fs)
    ∧ (fs.Nodup → (GoogleScraper.processAttraction fetch urls folder target fs).fs.Nodup)
    ∧ (target ≤ GoogleScraper.count_images_in_directory fs →
        GoogleScraper.processAttraction fetch urls folder target fs = ⟨fs, 0, 0, 0⟩) := by
  refine ⟨?_, ?_, ?_, ?_⟩
  · intro url rest st hlt hmem
    simp only [GoogleScraper.downloadLoop]
    rw [if_neg (by omega), if_pos hmem]
  · intro f hf
    unfold GoogleScraper.processAttraction
    by_cases h1 : target ≤ GoogleScraper.count_images_in_directory fs
    · rw [if_pos h1]; exact hf
    · rw [if_neg h1]
      by_cases h2 : urls.isEmpty
      · simp only [h2, if_true]; exact hf
      · simp only [h2, if_false]
        exact gLoop_fs_mono fetch folder _ target urls ⟨fs, 0, 0⟩ f hf
  · intro hnd
    unfold GoogleScraper.processAttraction
    by_cases h1 : target ≤ GoogleScraper.count_images_in_directory fs
    · rw [if_pos h1]; exact hnd
    · rw [if_neg h1]
      by_cases h2 : urls.isEmpty
      · simp only [h2, if_true]; exact hnd
      · simp only [h2, if_false]
        exact gLoop_nodup fetch folder _ target urls ⟨fs, 0, 0⟩ hnd
  · intro h1
    unfold GoogleScraper.processAttraction
    rw [if_pos h1]

/-- Concrete instance of `c1_rerun_idempotent`: with one already-present
file named for index 1, the exists-branch of the loop counts the candidate
without fetching, and a re-run over a satisfied directory is a no-op with
zero network calls. -/
theorem c1_rerun_idempotent_witness :
    (GoogleScraper.downloadLoop (fun _ => false) "a" 0 2
        ["u"] ⟨[GoogleScraper.imageFilename "a" 1], 0, 0⟩ =
      GoogleScraper.downloadLoop (fun _ => false) "a" 0 2
        [] ⟨[GoogleScraper.imageFilename "a" 1], 1, 0⟩)
    ∧ GoogleScraper.processAttraction (fun _ => false) ["u"] "a" 1
        [GoogleScraper.imageFilename "a" 1] =
      ⟨[GoogleScraper.imageFilename "a" 1], 0, 0, 0⟩ := by
  constructor
  · exact (c1_rerun_idempotent (fun _ => false) ["u"] "a" 0 2
      [GoogleScraper.imageFilename "a" 1]).1 "u" []
      ⟨[GoogleScraper.imageFilename "a" 1], 0, 0⟩ (by decide) (by decide)
  · exact (c1_rerun_idempotent (fun _ => false) ["u"] "a" 0 1
      [GoogleScraper.imageFilename "a" 1]).2.2.2 (by decide)

/-- C3 counterexample: in the Maps variant (`image_scraper.py`) the stored
sequence indices are neither contiguous nor zero-padded.  With two
candidates of which only the second downloads successfully, the single
stored image has index 2 (a gap at 1), and its name differs from the
zero-padded name of the Google variant. -/
theorem c3_contiguity_counterexample :
    (ImageScraper.downloadLoop (fun u => u = "u2") "a" 0 ["u1", "u2"] 1
        ⟨[], 0⟩).fs = [ImageScraper.imageFilename "a" 2]
    ∧ ImageScraper.imageFilename "a" 1 ∉
        (ImageScraper.downloadLoop (fun u => u = "u2") "a" 0 ["u1", "u2"] 1
          ⟨[], 0⟩).fs
    ∧ ImageScraper.imageFilename "a" 2 ≠ GoogleScraper.imageFilename "a" 2 := by
  refine ⟨by decide, by decide, by decide⟩

/-- C3 amended: in the Google variant every stored file is named from the
sanitized folder name and the 1-based index existing + downloaded + 1,
zero-padded to at least three digits, the naming is injective in the index,
and a run over an initially empty attraction directory with N successful
downloads stores exactly the names of indices N, N-1, ..., 1 (a contiguous
run).  In the Maps variant the index is existing plus the candidate
position without padding, so a failed candidate leaves a gap (see the
counterexample). -/
theorem c3_naming_contiguity_amended (fetch : String → Bool)
    (urls : List String) (folder : String) (target : Nat) :
    (GoogleScraper.downloadLoop fetch folder 0 target urls ⟨[], 0, 0⟩).fs =
      GoogleScraper.seqNames folder
        ((GoogleScraper.downloadLoop fetch folder 0 target urls ⟨[], 0, 0⟩).downloaded)
    ∧ (∀ n, 3 ≤ (pad3 n).length)
    ∧ (∀ i j, GoogleScraper.imageFilename folder i =
        GoogleScraper.imageFilename folder j → i = j) := by
  refine ⟨?_, pad3_length, fun i j h => gImageFilename_inj h⟩
  have h := gLoop_contig fetch folder target urls 0 0
  simpa [GoogleScraper.seqNames] using h

/-- C2: the tracker computes needed = max(0, target - scan_existing) — in
the code the truncated subtraction maxImages - scanExisting, which agrees
with the max over the integers — and an attraction whose directory already
meets the target is skipped entirely: the Flickr scrape returns at once
with zero network calls (no provider search, no download), and so does the
Google per-attraction run. -/
theorem c2_tracker_needed_skip (hasApi : Bool) (apiQ webQ : List (List String))
    (download : String → Bool) (folder : String) (maxImages : Nat)
    (fs : List String) (fetch : String → Bool) (urls : List String)
    (gfolder : String) (target : Nat) (gfs : List String) :
    ((FlickrScraper.neededImages maxImages fs : Int) =
      max 0 ((maxImages : Int) - (FlickrScraper.scanExisting fs : Int)))
    ∧ (maxImages ≤ FlickrScraper.scanExisting fs →
        FlickrScraper.scrape_attraction_images hasApi apiQ webQ download folder
          maxImages fs = (⟨fs, 0, 0⟩, true))
    ∧ (target ≤ GoogleScraper.count_images_in_directory gfs →
        GoogleScraper.processAttraction fetch urls gfolder target gfs =
          ⟨gfs, 0, 0, 0⟩) := by
  refine ⟨?_, ?_, ?_⟩
  · unfold FlickrScraper.neededImages
    rcases le_or_lt maxImages (FlickrScraper.scanExisting fs) with h | h
    · rw [Nat.sub_eq_zero_of_le h, max_eq_left (by omega)]
      simp
    · rw [max_eq_right (by omega)]
      omega
  · intro h
    unfold FlickrScraper.scrape_attraction_images
    rw [if_pos h]
  · intro h
    unfold GoogleScraper.processAttraction
    rw [if_pos h]

/-- Concrete instance of `c2_tracker_needed_skip`: a directory with one
.png (Flickr allowlist) or one .jpg (Google) already satisfies target 1, so
the run is skipped with zero network calls. -/
theorem c2_tracker_needed_skip_witness :
    FlickrScraper.scrape_attraction_images false [] [["u"]] (fun _ => true) "a"
        1 ["x.png"] = (⟨["x.png"], 0, 0⟩, true)
    ∧ GoogleScraper.processAttraction (fun _ => true) ["u"] "a" 1 ["b.jpg"] =
        ⟨["b.jpg"], 0, 0, 0⟩ := by
  constructor
  · exact (c2_tracker_needed_skip false [] [["u"]] (fun _ => true) "a" 1
      ["x.png"] (fun _ => true) ["u"] "a" 1 ["b.jpg"]).2.1 (by decide)
  · exact (c2_tracker_needed_skip false [] [["u"]] (fun _ => true) "a" 1
      ["x.png"] (fun _ => true) ["u"] "a" 1 ["b.jpg"]).2.2 (by decide)

lemma flickr_download_no_partial (resp : Option HttpResponse) (path : String)
    (dir : List (String × StoredFile)) :
    (FlickrScraper.download_image resp path dir).1 = false →
    (FlickrScraper.download_image resp path dir).2 = dir := by
  cases resp with
  | none => intro _; rfl
  | some r =>
    intro hf
    by_cases ht : strStartsWith r.contentType "image/" = false
    · simp [FlickrScraper.download_image, ht]
    · cases hcl : r.contentLength with
      | some l =>
        by_cases hl : l < 10000
        · simp [FlickrScraper.download_image, ht, hcl, hl]
        · by_cases hb : r.body.length < 10000
          · simp [FlickrScraper.download_image, FlickrScraper.writeChecked,
              ht, hcl, hl, hb]
          · exfalso
            simp [FlickrScraper.download_image, FlickrScraper.writeChecked,
              ht, hcl, hl, hb] at hf
      | none =>
        by_cases hb : r.body.length < 10000
        · simp [FlickrScraper.download_image, FlickrScraper.writeChecked,
            ht, hcl, hb]
        · exfalso
          simp [FlickrScraper.download_image, FlickrScraper.writeChecked,
            ht, hcl, hb] at hf

lemma google_download_no_partial (decode : List Nat → Option Img)
    (encSize : Img → Nat) (resp : Option HttpResponse) (path : String)
    (dir : List (String × StoredFile)) :
    (GoogleScraper.download_image decode encSize resp path dir).1 = false →
    (GoogleScraper.download_image decode encSize resp path dir).2 = dir := by
  cases resp with
  | none => intro _; rfl
  | some r =>
    intro hf
    by_cases ht : strStartsWith (lowerStr r.contentType) "image/" = false
    · simp [GoogleScraper.download_image, ht]
    · cases hdec : decode r.body with
      | none => simp [GoogleScraper.download_image, ht, hdec]
      | some img =>
        by_cases he : 0 < encSize (GoogleScraper.convertForJpeg img)
        · exfalso
          simp [GoogleScraper.download_image, ht, hdec, he] at hf
        · simp [GoogleScraper.download_image, ht, hdec, he]

/-- C4 counterexample: the Google fetcher (cited by the claim) enforces no
10000-byte minimum.  A 3-byte image payload with a declared length of 5000
bytes — both far below the threshold — is accepted and stored. -/
theorem c4_small_payload_counterexample :
    GoogleScraper.download_image (fun _ => some ⟨PMode.RGB⟩) (fun _ => 1)
        (some ⟨"image/jpeg", some 5000, [1, 2, 3]⟩) "p.jpg" [] =
      (true, [("p.jpg", StoredFile.jpeg 95 ⟨PMode.RGB⟩)]) := by
  decide

/-- C4 amended: the Flickr fetcher rejects a non-image content type, a
declared byte length under 10000 and an actual byte length under 10000,
each rejection leaving the directory unchanged; the Google fetcher rejects
a non-image content type and an undecodable body but enforces no byte
minimum; on every failure path of either fetcher the destination directory
is left unchanged, so no partial file remains. -/
theorem c4_fetcher_validation_amended (r : HttpResponse) (path : String)
    (dir : List (String × StoredFile)) (l : Nat)
    (decode : List Nat → Option Img) (encSize : Img → Nat) :
    (strStartsWith r.contentType "image/" = false →
      FlickrScraper.download_image (some r) path dir = (false, dir))
    ∧ (r.contentLength = some l → l < 10000 →
        FlickrScraper.download_image (some r) path dir = (false, dir))
    ∧ (r.body.length < 10000 →
        FlickrScraper.download_image (some r) path dir = (false, dir))
    ∧ (∀ resp : Option HttpResponse,
        (FlickrScraper.download_image resp path dir).1 = false →
        (FlickrScraper.download_image resp path dir).2 = dir)
    ∧ (strStartsWith (lowerStr r.contentType) "image/" = false →
        GoogleScraper.download_image decode encSize (some r) path dir =
          (false, dir))
    ∧ (decode r.body = none →
        GoogleScraper.download_image decode encSize (some r) path dir =
          (false, dir))
    ∧ (∀ resp : Option HttpResponse,
        (GoogleScraper.download_image decode encSize resp path dir).1 = false →
        (GoogleScraper.download_image decode encSize resp path dir).2 = dir) := by
  refine ⟨?_, ?_, ?_, fun resp => flickr_download_no_partial resp path dir,
    ?_, ?_, fun resp => google_download_no_partial decode encSize resp path dir⟩
  · intro ht
    simp [FlickrScraper.download_image, ht]
  · intro hcl hl
    by_cases ht : strStartsWith r.contentType "image/" = false
    · simp [FlickrScraper.download_image, ht]
    · simp [FlickrScraper.download_image, ht, hcl, hl]
  · intro hb
    by_cases ht : strStartsWith r.contentType "image/" = false
    · simp [FlickrScraper.download_image, ht]
    · cases hcl : r.contentLength with
      | some k =>
        by_cases hk : k < 10000
        · simp [FlickrScraper.download_image, ht, hcl, hk]
        · simp [FlickrScraper.download_image, FlickrScraper.writeChecked,
            ht, hcl, hk, hb]
      | none =>
        simp [FlickrScraper.download_image, FlickrScraper.writeChecked,
          ht, hcl, hb]
  · intro ht
    simp [GoogleScraper.download_image, ht]
  · intro hdec
    by_cases ht : strStartsWith (lowerStr r.contentType) "image/" = false
    · simp [GoogleScraper.download_image, ht]
    · simp [GoogleScraper.download_image, ht, hdec]

/-- Concrete instance of `c4_fetcher_validation_amended`: a text/html
response is rejected by both fetchers, a declared length of 20 bytes and an
actual body of 2 bytes are rejected by the Flickr fetcher, and an
undecodable body is rejected by the Google fetcher, all leaving the
directory unchanged. -/
theorem c4_fetcher_validation_witness :
    FlickrScraper.download_image (some ⟨"text/html", some 20, [1, 2]⟩) "p" [] =
      (false, [])
    ∧ FlickrScraper.download_image (some ⟨"image/png", some 20, [1, 2]⟩) "p" [] =
      (false, [])
    ∧ FlickrScraper.download_image (some ⟨"image/png", none, [1, 2]⟩) "p" [] =
      (false, [])
    ∧ GoogleScraper.download_image (fun _ => none) (fun _ => 1)
        (some ⟨"text/html", some 20, [1, 2]⟩) "p" [] = (false, [])
    ∧ GoogleScraper.download_image (fun _ => none) (fun _ => 1)
        (some ⟨"image/png", none, [1, 2]⟩) "p" [] = (false, []) := by
  refine ⟨?_, ?_, ?_, ?_, ?_⟩
  · exact (c4_fetcher_validation_amended ⟨"text/html", some 20, [1, 2]⟩ "p" []
      20 (fun _ => none) (fun _ => 1)).1 (by decide)
  · exact (c4_fetcher_validation_amended ⟨"image/png", some 20, [1, 2]⟩ "p" []
      20 (fun _ => none) (fun _ => 1)).2.1 rfl (by decide)
  · exact (c4_fetcher_validation_amended ⟨"image/png", none, [1, 2]⟩ "p" []
      20 (fun _ => none) (fun _ => 1)).2.2.1 (by decide)
  · exact (c4_fetcher_validation_amended ⟨"text/html", some 20, [1, 2]⟩ "p" []
      20 (fun _ => none) (fun _ => 1)).2.2.2.2.1 (by decide)
  · exact (c4_fetcher_validation_amended ⟨"image/png", none, [1, 2]⟩ "p" []
      20 (fun _ => none) (fun _ => 1)).2.2.2.2.2.1 rfl

lemma flickr_download_success {r : HttpResponse} (path : String)
    (dir : List (String × StoredFile))
    (ht : strStartsWith r.contentType "image/" = true)
    (hcl : r.contentLength = none)
    (hb : ¬ r.body.length < 10000) :
    FlickrScraper.download_image (some r) path dir =
      (true, (path, StoredFile.raw r.body) :: dir) := by
  simp [FlickrScraper.download_image, FlickrScraper.writeChecked, ht, hcl, hb]

/-- C5 counterexample: the Flickr fetcher (cited by the claim) does not
re-encode: a sufficiently large PNG response body is stored as the raw
downloaded bytes under a .jpg name, not as a JPEG re-encoding. -/
theorem c5_raw_bytes_counterexample :
    FlickrScraper.download_image
        (some ⟨"image/png", none, bigBody⟩) "a_1.jpg" [] =
      (true, [("a_1.jpg", StoredFile.raw bigBody)])
    ∧ StoredFile.raw bigBody ≠ StoredFile.jpeg 95 ⟨PMode.RGB⟩ := by
  constructor
  · refine flickr_download_success "a_1.jpg" [] (by decide) rfl ?_
    show ¬ bigBody.length < 10000
    rw [show bigBody.length = 10000 from by
      rw [bigBody]; exact List.length_replicate 10000 7]
    omega
  · exact fun h => StoredFile.noConfusion h

/-- C5 amended: the Google fetcher re-encodes every stored output as JPEG
at quality 95 with the mode normalized to RGB (no alpha channel); images
with an alpha channel or palette mode (RGBA, LA, P) take the
composite-onto-opaque-white branch.  The Flickr fetcher stores the raw
bytes unchanged (see the counterexample), so only the Google corpus is
format-uniform. -/
theorem c5_format_normalization_amended (decode : List Nat → Option Img)
    (encSize : Img → Nat) (r : HttpResponse) (path : String)
    (dir : List (String × StoredFile)) (img : Img) :
    (GoogleScraper.convertForJpeg img).mode = PMode.RGB
    ∧ modeHasAlpha (GoogleScraper.convertForJpeg img).mode = false
    ∧ (img.mode = PMode.RGBA ∨ img.mode = PMode.LA ∨ img.mode = PMode.P →
        GoogleScraper.convertForJpeg img = GoogleScraper.compositeOnWhite img)
    ∧ (decode r.body = some img →
        strStartsWith (lowerStr r.contentType) "image/" = true →
        0 < encSize (GoogleScraper.convertForJpeg img) →
        GoogleScraper.download_image decode encSize (some r) path dir =
          (true, (path, StoredFile.jpeg 95 (GoogleScraper.convertForJpeg img))
            :: dir)) := by
  have hmode : (GoogleScraper.convertForJpeg img).mode = PMode.RGB := by
    by_cases h1 : img.mode = PMode.RGBA ∨ img.mode = PMode.LA ∨ img.mode = PMode.P
    · simp [GoogleScraper.convertForJpeg, h1, GoogleScraper.compositeOnWhite]
    · by_cases h2 : img.mode = PMode.RGB
      · simp [GoogleScraper.convertForJpeg, h1, h2]
      · simp [GoogleScraper.convertForJpeg, h1, h2, GoogleScraper.convertRGB]
  refine ⟨hmode, ?_, ?_, ?_⟩
  · rw [hmode]; decide
  · intro h1
    simp [GoogleScraper.convertForJpeg, h1]
  · intro hdec ht he
    have ht2 : ¬ strStartsWith (lowerStr r.contentType) "image/" = false := by
      simp [ht]
    simp [GoogleScraper.download_image, ht2, hdec, he]

/-- Concrete instance of `c5_format_normalization_amended`: an RGBA input
is composited and stored as JPEG quality 95 in RGB mode. -/
theorem c5_format_normalization_witness :
    GoogleScraper.download_image (fun _ => some ⟨PMode.RGBA⟩) (fun _ => 1)
        (some ⟨"image/png", none, [1]⟩) "p.jpg" [] =
      (true, [("p.jpg", StoredFile.jpeg 95
        (GoogleScraper.convertForJpeg ⟨PMode.RGBA⟩))])
    ∧ GoogleScraper.convertForJpeg ⟨PMode.RGBA⟩ =
        GoogleScraper.compositeOnWhite ⟨PMode.RGBA⟩ := by
  constructor
  · exact (c5_format_normalization_amended (fun _ => some ⟨PMode.RGBA⟩)
      (fun _ => 1) ⟨"image/png", none, [1]⟩ "p.jpg" [] ⟨PMode.RGBA⟩).2.2.2
      rfl (by decide) (by decide)
  · exact (c5_format_normalization_amended (fun _ => some ⟨PMode.RGBA⟩)
      (fun _ => 1) ⟨"image/png", none, [1]⟩ "p.jpg" [] ⟨PMode.RGBA⟩).2.2.1
      (by simp)

/-- C6: the pagination policy of `GoogleImageSearcher.search_images`.  The
loop stops when the requested number of URLs has been collected, when the
hard offset ceiling 91 is passed (the provider caps at 100 results), when a
page comes back empty, or when a request or parse failure occurs — the
failure aborts the current pagination without retrying and returns the URLs
already yielded instead of raising; otherwise the page's valid links are
appended and the offset advances by 10.  The last conjunct is the composite
mid-pagination abort: a good first page followed by a request failure
returns exactly the first page's links. -/
theorem c6_pagination_policy (pages : Nat → GoogleScraper.PageResult)
    (num : Nat) (acc : List GoogleScraper.UrlParts) (start : Nat)
    (items : List (Option GoogleScraper.UrlParts)) :
    (num ≤ acc.length →
      GoogleScraper.search_images_loop pages num acc start = acc)
    ∧ (91 < start →
      GoogleScraper.search_images_loop pages num acc start = acc)
    ∧ (pages start = GoogleScraper.PageResult.requestError →
      GoogleScraper.search_images_loop pages num acc start = acc)
    ∧ (pages start = GoogleScraper.PageResult.parseError →
      GoogleScraper.search_images_loop pages num acc start = acc)
    ∧ (pages start = GoogleScraper.PageResult.ok [] →
      GoogleScraper.search_images_loop pages num acc start = acc)
    ∧ (acc.length < num → start ≤ 91 →
      pages start = GoogleScraper.PageResult.ok items → items.isEmpty = false →
      GoogleScraper.search_images_loop pages num acc start =
        GoogleScraper.search_images_loop pages num
          (acc ++ GoogleScraper.pageLinks items) (start + 10))
    ∧ (pages 1 = GoogleScraper.PageResult.ok items → items.isEmpty = false →
      0 < num → pages 11 = GoogleScraper.PageResult.requestError →
      GoogleScraper.search_images pages num = GoogleScraper.pageLinks items) := by
  refine ⟨?_, ?_, ?_, ?_, ?_, ?_, ?_⟩
  · intro h
    unfold GoogleScraper.search_images_loop
    rw [dif_neg (by omega)]
  · intro h
    unfold GoogleScraper.search_images_loop
    rw [dif_neg (by omega)]
  · intro hp
    by_cases hc : acc.length < num ∧ start ≤ 91
    · conv_lhs => rw [GoogleScraper.search_images_loop.eq_def]
      rw [dif_pos hc, hp]
    · unfold GoogleScraper.search_images_loop
      rw [dif_neg hc]
  · intro hp
    by_cases hc : acc.length < num ∧ start ≤ 91
    · conv_lhs => rw [GoogleScraper.search_images_loop.eq_def]
      rw [dif_pos hc, hp]
    · unfold GoogleScraper.search_images_loop
      rw [dif_neg hc]
  · intro hp
    by_cases hc : acc.length < num ∧ start ≤ 91
    · conv_lhs => rw [GoogleScraper.search_images_loop.eq_def]
      rw [dif_pos hc, hp]
      simp
    · unfold GoogleScraper.search_images_loop
      rw [dif_neg hc]
  · intro h1 h2 hp hne
    conv_lhs => rw [GoogleScraper.search_images_loop.eq_def]
    rw [dif_pos ⟨h1, h2⟩, hp]
    show (if items.isEmpty = true then acc
      else GoogleScraper.search_images_loop pages num
        (acc ++ GoogleScraper.pageLinks items) (start + 10)) =
      GoogleScraper.search_images_loop pages num
        (acc ++ GoogleScraper.pageLinks items) (start + 10)
    rw [hne, if_neg (by decide)]
  · intro hp hne hnum herr
    unfold GoogleScraper.search_images
    conv_lhs => rw [GoogleScraper.search_images_loop.eq_def]
    rw [dif_pos ⟨by simpa using hnum, by omega⟩, hp]
    show (if items.isEmpty = true then ([] : List GoogleScraper.UrlParts)
      else GoogleScraper.search_images_loop pages num
        ([] ++ GoogleScraper.pageLinks items) (1 + 10)) =
      GoogleScraper.pageLinks items
    rw [hne, if_neg (by decide)]
    rw [GoogleScraper.search_images_loop.eq_def]
    have h11 : pages (1 + 10) = GoogleScraper.PageResult.requestError := by
      rw [show (1 + 10 : Nat) = 11 from rfl]
      exact herr
    by_cases hc : ([] ++ GoogleScraper.pageLinks items).length < num ∧
        (1 + 10 : Nat) ≤ 91
    · rw [dif_pos hc, h11]
      simp
    · rw [dif_neg hc]
      simp

/-- Concrete instance of `c6_pagination_policy`: a provider whose first
page holds one valid photo link and whose second page request fails
transport-level yields exactly the first page's link, without raising. -/
theorem c6_pagination_policy_witness :
    GoogleScraper.search_images
        (fun s => if s = 1
          then GoogleScraper.PageResult.ok [some ⟨"https", "h.tw", "/a.jpg"⟩]
          else GoogleScraper.PageResult.requestError) 5 =
      GoogleScraper.pageLinks [some ⟨"https", "h.tw", "/a.jpg"⟩] := by
  exact (c6_pagination_policy
    (fun s => if s = 1
      then GoogleScraper.PageResult.ok [some ⟨"https", "h.tw", "/a.jpg"⟩]
      else GoogleScraper.PageResult.requestError) 5 [] 1
    [some ⟨"https", "h.tw", "/a.jpg"⟩]).2.2.2.2.2.2 rfl rfl (by decide) rfl

lemma firstHit_calls_pos {qs : List (List String)} (h : qs ≠ []) :
    1 ≤ (FlickrScraper.firstHit qs).2 := by
  cases qs with
  | nil => exact absurd rfl h
  | cons q qs =>
    by_cases hq : q.isEmpty
    · simp [FlickrScraper.firstHit, hq]
    · simp [FlickrScraper.firstHit, hq]

lemma scrapeLoop_calls_mono (download : String → Bool) (folder : String)
    (existing needed : Nat) :
    ∀ (urls : List String) (st : FlickrScraper.ScrapeSt),
      st.netCalls ≤
        (FlickrScraper.scrapeLoop download folder existing needed urls st).netCalls := by
  intro urls
  induction urls with
  | nil => intro st; exact le_refl _
  | cons url rest ih =>
    intro st
    simp only [FlickrScraper.scrapeLoop]
    by_cases h1 : needed ≤ st.downloaded
    · rw [if_pos h1]
    · rw [if_neg h1]
      by_cases h2 : download url
      · simp only [h2, if_true]
        exact le_trans (Nat.le_succ _)
          (ih ⟨FlickrScraper.imageFilename folder (existing + st.downloaded + 1)
            :: st.fs, st.downloaded + 1, st.netCalls + 1⟩)
      · simp only [h2, if_false]
        exact le_trans (Nat.le_succ _) (ih ⟨st.fs, st.downloaded, st.netCalls + 1⟩)

lemma searchPhase_noApi_calls (apiQ webQ : List (List String)) :
    (FlickrScraper.searchPhase false apiQ webQ).2 =
      (FlickrScraper.firstHit webQ).2 := by
  show 0 + (FlickrScraper.firstHit webQ).2 = (FlickrScraper.firstHit webQ).2
  omega

/-- C7 counterexample: a Flickr scraper constructed with both credentials
absent (so `initHasApi` is false and no API client exists) still attempts
acquisition: it falls back to web scraping, makes two network calls (one
web search, one download) and stores a file — the run is not terminated. -/
theorem c7_credential_counterexample :
    FlickrScraper.scrape_attraction_images (FlickrScraper.initHasApi none none)
        [[], [], []] [["u"], [], []] (fun _ => true) "a" 1 [] =
      (⟨[FlickrScraper.imageFilename "a" 1], 1, 2⟩, true) := by
  decide

/-- C7 amended: the Google scraper fails fast — with a falsy API key or
search engine id, `process_attractions` returns immediately with zero
attractions processed, zero provider searches and zero downloads.  The
Flickr scraper does not: missing credentials only make `initHasApi` false,
and a scrape with no API client still proceeds through the web-scraping
fallback, making at least one network call whenever the directory is not
yet satisfied and a web query list exists. -/
theorem c7_credential_fail_fast_amended (apiKey searchEngineId : Option String)
    (fetch : String → Bool) (urlsOf dirOf : String → List String)
    (target : Nat) (attractions : List String) (key secret : Option String)
    (apiQ webQ : List (List String)) (download : String → Bool)
    (folder : String) (maxImages : Nat) (fs : List String) :
    (pyTruthy apiKey = false ∨ pyTruthy searchEngineId = false →
      GoogleScraper.process_attractions apiKey searchEngineId fetch urlsOf
        dirOf target attractions = ⟨0, 0, 0⟩)
    ∧ (pyTruthy key = false → FlickrScraper.initHasApi key secret = false)
    ∧ (pyTruthy secret = false → FlickrScraper.initHasApi key secret = false)
    ∧ (FlickrScraper.scanExisting fs < maxImages → webQ ≠ [] →
      1 ≤ (FlickrScraper.scrape_attraction_images false apiQ webQ download
        folder maxImages fs).1.netCalls) := by
  refine ⟨?_, ?_, ?_, ?_⟩
  · intro h
    unfold GoogleScraper.process_attractions
    rw [if_pos]
    rcases h with h | h <;> simp [h]
  · intro h
    simp [FlickrScraper.initHasApi, h]
  · intro h
    simp [FlickrScraper.initHasApi, h]
  · intro hlt hne
    have hw := firstHit_calls_pos hne
    unfold FlickrScraper.scrape_attraction_images
    rw [if_neg (by omega)]
    by_cases hemp : (FlickrScraper.searchPhase false apiQ webQ).1.isEmpty
    · rw [if_pos hemp]
      show 1 ≤ (FlickrScraper.searchPhase false apiQ webQ).2
      rw [searchPhase_noApi_calls]
      omega
    · rw [if_neg hemp]
      show 1 ≤ (FlickrScraper.scrapeLoop download folder
        (FlickrScraper.scanExisting fs) (FlickrScraper.neededImages maxImages fs)
        (FlickrScraper.searchPhase false apiQ webQ).1
        ⟨fs, 0, (FlickrScraper.searchPhase false apiQ webQ).2⟩).netCalls
      have hmono := scrapeLoop_calls_mono download folder
        (FlickrScraper.scanExisting fs) (FlickrScraper.neededImages maxImages fs)
        (FlickrScraper.searchPhase false apiQ webQ).1
        ⟨fs, 0, (FlickrScraper.searchPhase false apiQ webQ).2⟩
      have hcalls : 1 ≤ (FlickrScraper.searchPhase false apiQ webQ).2 := by
        rw [searchPhase_noApi_calls]
        omega
      exact le_trans hcalls hmono

/-- Concrete instance of `c7_credential_fail_fast_amended`: with an absent
key the Google run does nothing, `initHasApi` is false, and a
credential-less Flickr scrape still makes a network call. -/
theorem c7_credential_fail_fast_witness :
    GoogleScraper.process_attractions none (some "c") (fun _ => true)
        (fun _ => ["u"]) (fun _ => []) 1 ["A"] = ⟨0, 0, 0⟩
    ∧ FlickrScraper.initHasApi none (some "s") = false
    ∧ 1 ≤ (FlickrScraper.scrape_attraction_images false [] [["u"]]
        (fun _ => true) "a" 1 []).1.netCalls := by
  refine ⟨?_, ?_, ?_⟩
  · exact (c7_credential_fail_fast_amended none (some "c") (fun _ => true)
      (fun _ => ["u"]) (fun _ => []) 1 ["A"] none (some "s") [] [["u"]]
      (fun _ => true) "a" 1 []).1 (Or.inl rfl)
  · exact (c7_credential_fail_fast_amended none (some "c") (fun _ => true)
      (fun _ => ["u"]) (fun _ => []) 1 ["A"] none (some "s") [] [["u"]]
      (fun _ => true) "a" 1 []).2.1 rfl
  · exact (c7_credential_fail_fast_amended none (some "c") (fun _ => true)
      (fun _ => ["u"]) (fun _ => []) 1 ["A"] none (some "s") [] [["u"]]
      (fun _ => true) "a" 1 []).2.2.2 (by decide) (by decide)

lemma countP_not_add {α : Type} (p : α → Bool) :
    ∀ l : List α, l.countP p + l.countP (fun a => !p a) = l.length := by
  intro l
  induction l with
  | nil => simp
  | cons a rest ih =>
    rw [List.countP_cons, List.countP_cons]
    cases hpa : p a
    · simp [hpa] <;> omega
    · simp [hpa] <;> omega

lemma process_csv_fold (step : String → FlickrScraper.Outcome) :
    ∀ (atts : List String) (x y : Nat),
      atts.foldl
        (fun c a =>
          match step a with
          | FlickrScraper.Outcome.ok => (c.1 + 1, c.2)
          | FlickrScraper.Outcome.notOk => (c.1, c.2 + 1)
          | FlickrScraper.Outcome.exn => (c.1, c.2 + 1)) (x, y) =
      (x + atts.countP (fun a => decide (step a = FlickrScraper.Outcome.ok)),
        y + atts.countP (fun a => !decide (step a = FlickrScraper.Outcome.ok))) := by
  intro atts
  induction atts with
  | nil => intro x y; simp
  | cons a rest ih =>
    intro x y
    rw [List.foldl_cons, List.countP_cons, List.countP_cons]
    cases hsa : step a with
    | ok =>
      simp only [hsa]
      rw [ih (x + 1) y]
      simp [hsa]
      omega
    | notOk =>
      simp only [hsa]
      rw [ih x (y + 1)]
      simp [hsa]
      omega
    | exn =>
      simp only [hsa]
      rw [ih x (y + 1)]
      simp [hsa]
      omega

lemma gProcess_fold (fetch : String → Bool) (urlsOf dirOf : String → List String)
    (target : Nat) :
    ∀ (atts : List String) (t : GoogleScraper.RunTotals),
      (atts.foldl
        (fun t a =>
          let r := GoogleScraper.processAttraction fetch (urlsOf a)
            (GoogleScraper.sanitize_filename a) target (dirOf a)
          ⟨t.processed + 1, t.searchCalls + r.searchCalls,
            t.fetchCalls + r.fetchCalls⟩) t).processed =
        t.processed + atts.length := by
  intro atts
  induction atts with
  | nil => intro t; simp
  | cons a rest ih =>
    intro t
    rw [List.foldl_cons, ih]
    show t.processed + 1 + rest.length = t.processed + (a :: rest).length
    simp only [List.length_cons]
    omega

/-- C8: the per-attraction loop never aborts the run.  In the Flickr
variant's `process_csv_file` the success and failure counters always sum to
the number of attractions (every attraction is processed, a caught
exception only increments the failure counter), the success counter counts
exactly the attractions whose scrape returned True, and the concrete
three-attraction example with the second raising yields success 2, failed 1;
in the Google variant's `process_attractions` the processed count equals
the number of attractions whenever credentials are present. -/
theorem c8_partial_failure_tolerance (step : String → FlickrScraper.Outcome)
    (atts : List String) (fetch : String → Bool)
    (urlsOf dirOf : String → List String) (target : Nat) :
    (FlickrScraper.process_csv_file step atts).1 +
        (FlickrScraper.process_csv_file step atts).2 = atts.length
    ∧ (FlickrScraper.process_csv_file step atts).1 =
        atts.countP (fun a => decide (step a = FlickrScraper.Outcome.ok))
    ∧ FlickrScraper.process_csv_file
        (fun a => if a = "A2" then FlickrScraper.Outcome.exn
          else FlickrScraper.Outcome.ok) ["A1", "A2", "A3"] = (2, 1)
    ∧ (GoogleScraper.process_attractions (some "k") (some "c") fetch urlsOf
        dirOf target atts).processed = atts.length := by
  have hfold := process_csv_fold step atts 0 0
  refine ⟨?_, ?_, by decide, ?_⟩
  · unfold FlickrScraper.process_csv_file
    rw [hfold]
    have hc := countP_not_add
      (fun a => decide (step a = FlickrScraper.Outcome.ok)) atts
    show (0 + atts.countP (fun a => decide (step a = FlickrScraper.Outcome.ok)))
        + (0 + atts.countP (fun a => !decide (step a = FlickrScraper.Outcome.ok)))
      = atts.length
    omega
  · unfold FlickrScraper.process_csv_file
    rw [hfold]
    show 0 + atts.countP (fun a => decide (step a = FlickrScraper.Outcome.ok)) =
      atts.countP (fun a => decide (step a = FlickrScraper.Outcome.ok))
    omega
  · unfold GoogleScraper.process_attractions
    rw [if_neg (by decide)]
    rw [gProcess_fold fetch urlsOf dirOf target atts ⟨0, 0, 0⟩]
    show 0 + atts.length = atts.length
    omega

lemma read_lines_filterMap {α : Type} (parse : String → Option α) :
    ∀ lines : List String,
      ConvertJsonl.read_jsonl_lines parse lines =
        ((lines.map ConvertJsonl.stripLine).filter
          (fun t => !t.isEmpty)).filterMap parse := by
  intro lines
  induction lines with
  | nil => rfl
  | cons a rest ih =>
    by_cases he : (ConvertJsonl.stripLine a).isEmpty
    · simp only [ConvertJsonl.read_jsonl_lines, List.filterMap_cons, List.map_cons,
        List.filter_cons, he, Bool.not_true, if_false, Bool.false_eq_true] at ih ⊢
      exact ih
    · have he2 : (ConvertJsonl.stripLine a).isEmpty = false := by
        simpa using he
      cases hp : parse (ConvertJsonl.stripLine a) with
      | none =>
        simp only [ConvertJsonl.read_jsonl_lines, List.filterMap_cons, List.map_cons,
          List.filter_cons, he2, Bool.not_false, if_true, hp,
          Bool.false_eq_true, if_false] at ih ⊢
        exact ih
      | some v =>
        simp only [ConvertJsonl.read_jsonl_lines, List.filterMap_cons, List.map_cons,
          List.filter_cons, he2, Bool.not_false, if_true, hp,
          Bool.false_eq_true, if_false] at ih ⊢
        exact congrArg (v :: ·) ih

/-- C10: `read_jsonl_file` returns exactly the successfully parsed objects
of the non-empty (after stripping) lines, in file order: a line that strips
to empty or fails to parse is skipped without affecting any other line
(conjunct 1 splits around such a line), the result is the in-order
composition strip-filter-parse (conjunct 2), and errors arise only from the
file itself: an unreadable file propagates its error while a readable file
never raises (conjuncts 3 and 4). -/
theorem c10_read_jsonl_tolerant {α : Type} (parse : String → Option α)
    (l1 l2 lines : List String) (bad : String) (e : String) :
    ((ConvertJsonl.stripLine bad).isEmpty = true ∨
        parse (ConvertJsonl.stripLine bad) = none →
      ConvertJsonl.read_jsonl_lines parse (l1 ++ bad :: l2) =
        ConvertJsonl.read_jsonl_lines parse l1 ++
          ConvertJsonl.read_jsonl_lines parse l2)
    ∧ ConvertJsonl.read_jsonl_lines parse lines =
        ((lines.map ConvertJsonl.stripLine).filter
          (fun t => !t.isEmpty)).filterMap parse
    ∧ ConvertJsonl.read_jsonl_file parse (Except.error e) = Except.error e
    ∧ ConvertJsonl.read_jsonl_file parse (Except.ok lines) =
        Except.ok (ConvertJsonl.read_jsonl_lines parse lines) := by
  refine ⟨?_, read_lines_filterMap parse lines, rfl, rfl⟩
  intro hbad
  unfold ConvertJsonl.read_jsonl_lines
  rw [List.filterMap_append]
  congr 1
  have hnone : (let t := ConvertJsonl.stripLine bad
      if t.isEmpty then none else parse t) = (none : Option α) := by
    rcases hbad with h | h
    · simp [h]
    · by_cases he : (ConvertJsonl.stripLine bad).isEmpty <;> simp [he, h]
  rw [List.filterMap_cons, hnone]

/-- Concrete instance of `c10_read_jsonl_tolerant`: a line that fails to
parse is skipped and the remaining lines parse exactly as if it were
absent. -/
theorem c10_read_jsonl_tolerant_witness :
    ConvertJsonl.read_jsonl_lines (fun t => if t = "g" then some 1 else none)
        (["g"] ++ "x" :: [" g "]) =
      ConvertJsonl.read_jsonl_lines
        (fun t => if t = "g" then some 1 else none) ["g"] ++
      ConvertJsonl.read_jsonl_lines
        (fun t => if t = "g" then some 1 else none) [" g "] := by
  exact (c10_read_jsonl_tolerant (fun t => if t = "g" then some 1 else none)
    ["g"] [" g "] [] "x" "e").1 (Or.inr (by decide))

/-- Concrete instance of `c3_naming_contiguity_amended`: a two-candidate
run stores a contiguous run of names, the padding of index 0 is three
characters wide, and equal names at indices 1 and 1 give equal indices. -/
theorem c3_naming_contiguity_witness :
    (GoogleScraper.downloadLoop (fun u => u = "u1") "a" 0 5
        ["u1", "u2"] ⟨[], 0, 0⟩).fs =
      GoogleScraper.seqNames "a"
        ((GoogleScraper.downloadLoop (fun u => u = "u1") "a" 0 5
          ["u1", "u2"] ⟨[], 0, 0⟩).downloaded)
    ∧ 3 ≤ (pad3 0).length := by
  constructor
  · exact (c3_naming_contiguity_amended (fun u => u = "u1") ["u1", "u2"]
      "a" 5).1
  · exact (c3_naming_contiguity_amended (fun u => u = "u1") ["u1", "u2"]
      "a" 5).2.1 0

/-- Concrete instance of `c9_sanitize_idempotent_safe`: sanitizing a name
with a slash and spaces is idempotent and the first character of the
result is safe. -/
theorem c9_sanitize_idempotent_witness :
    FlickrScraper.sanitize_filename
        (FlickrScraper.sanitize_filename "a b/c") =
      FlickrScraper.sanitize_filename "a b/c"
    ∧ isUnsafeChar 'a' = false
    ∧ (GoogleScraper.sanitize_filename "a b/c").data.length ≤ 100 := by
  refine ⟨(c9_sanitize_idempotent_safe "a b/c").1, ?_, ?_⟩
  · exact (c9_sanitize_idempotent_safe "a b/c").2.1 'a' (by decide)
  · exact (c9_sanitize_idempotent_safe "a b/c").2.2.2.2.2
